import Mathlib

/-!
# Verification of the mcp-gateway adaptive tool-selection engine

This development shallowly embeds the core of the `tool_router` package
(keyword relevance scorer, AI provider clients with JSON response parsing,
the multi-provider pool, the hybrid blender and the feedback store) and
proves or refutes the frozen specification claims about it.

Conventions:
- Python strings are Lean `String` / `List Char`; the embedding is faithful
  for the ASCII inputs the claims exercise.
- Python floats are modelled as `ℚ` (all constants involved are exact
  decimals, so no rounding questions arise in the claims).
- Python `None`-able values are `Option`; functions that can only fail are
  total Lean functions returning `Option`.
- Exception paths (network errors, `json.JSONDecodeError`, `TypeError`)
  are modelled as explicit outcome constructors mapped to `none`, mirroring
  the `try`/`except` structure of the source.
-/

/-! ## Tokenization and relevance scoring (`tool_router/scoring.py`) -/

/-- A character that survives the `[^a-z0-9\s]` scrub and is not a
separator: after lowercasing, tokens are maximal runs of `[a-z0-9]`. -/
def isTokChar (c : Char) : Bool :=
  ('a' ≤ c && c ≤ 'z') || ('0' ≤ c && c ≤ '9')

/-- Maximal runs of token characters, accumulator holds the current run
reversed.  Embeds `re.sub(r"[^a-z0-9\s]", " ", s).split()`. -/
def tokenRuns : List Char → List Char → List String
  | [], acc => if acc.isEmpty then [] else [String.mk acc.reverse]
  | c :: rest, acc =>
    if isTokChar c then tokenRuns rest (c :: acc)
    else if acc.isEmpty then tokenRuns rest []
    else String.mk acc.reverse :: tokenRuns rest []

/-- Embeds `_tokens` from `scoring.py`: lowercase, strip non-alphanumerics,
split on whitespace, as a set of tokens. -/
def pyTokens (s : String) : Finset String :=
  (tokenRuns (s.data.map Char.toLower) []).toFinset

/-- Embeds the module-level `SYNONYMS` table of `scoring.py`;
keys absent from the table map to the empty set (the code guards with
`if token in SYNONYMS`). -/
def SYNONYMS (t : String) : Finset String :=
  if t = "search" then {"find", "lookup", "query", "seek"}
  else if t = "find" then {"search", "lookup", "locate"}
  else if t = "list" then {"show", "display", "get"}
  else if t = "create" then {"make", "add", "new"}
  else if t = "delete" then {"remove", "destroy"}
  else if t = "update" then {"modify", "change", "edit"}
  else if t = "read" then {"get", "fetch", "retrieve"}
  else if t = "write" then {"save", "store", "put"}
  else ∅

/-- Embeds `_expand_with_synonyms`: the token set united with every
synonym set of a member token (one level, not transitive). -/
def expandWithSynonyms (tokens : Finset String) : Finset String :=
  tokens ∪ tokens.biUnion SYNONYMS

/-- Embeds `_partial_match_score`: 2 points for each query token of length
at least 3 that is a substring of the lowercased target. -/
def partialMatchScore (queryTokens : Finset String) (target : String) : ℕ :=
  2 * (queryTokens.filter
        (fun t => 3 ≤ t.length ∧ t.data <:+: target.data.map Char.toLower)).card

/-- A tool descriptor as consumed by `scoring.py` (a Python dict with
optional string fields). -/
structure Tool where
  name : Option String
  description : Option String
  gatewaySlug : Option String
  gateway_slug : Option String
deriving DecidableEq, Repr

/-- Embeds Python `a or b` for an optional string `a` with fallback `b`
(`None` and the empty string are falsy). -/
def pyOrStr (a : Option String) (b : String) : String :=
  match a with
  | some s => if s = "" then b else s
  | none => b

/-- Embeds Python `str.lower` (ASCII). -/
def strLower (s : String) : String :=
  String.mk (s.data.map Char.toLower)

/-- Embeds `score_tool` from `scoring.py`.  The Python function returns
`float(total_score)` where `total_score` is an integer sum, so the score
is modelled as `ℕ`. -/
def score_tool (task context : String) (tool : Tool) : ℕ :=
  let task_tokens := pyTokens task
  let context_tokens := if context = "" then ∅ else pyTokens context
  let combined := task_tokens ∪ context_tokens
  if combined = ∅ then 0
  else
    let expanded_query := expandWithSynonyms combined
    let name := strLower (pyOrStr tool.name "")
    let desc := strLower (pyOrStr tool.description "")
    let gateway := strLower (pyOrStr tool.gatewaySlug (pyOrStr tool.gateway_slug ""))
    let name_tokens := pyTokens name
    let desc_tokens := pyTokens desc
    let gateway_tokens := pyTokens gateway
    (expanded_query ∩ name_tokens).card * 10 +
    (expanded_query ∩ desc_tokens).card * 3 +
    (expanded_query ∩ gateway_tokens).card * 2 +
    partialMatchScore combined name * 5 +
    partialMatchScore combined desc * 1

/-- Stable descending insertion by score: an element is placed before the
first existing element whose score is less than or equal to its own, so an
earlier element precedes later elements of equal score. -/
def insertDesc {α : Type} (a : α × ℕ) : List (α × ℕ) → List (α × ℕ)
  | [] => [a]
  | b :: l => if b.2 ≤ a.2 then a :: b :: l else b :: insertDesc a l

/-- Stable descending sort by score, embedding Python's stable
`list.sort(key=lambda x: -x[1])`. -/
def sortScoredDesc {α : Type} : List (α × ℕ) → List (α × ℕ)
  | [] => []
  | a :: l => insertDesc a (sortScoredDesc l)

/-- Embeds `pick_best_tools` from `scoring.py`: score each tool, stable
sort by descending score, keep strictly positive scores, truncate. -/
def pick_best_tools (tools : List Tool) (task context : String) (top_n : ℕ) :
    List Tool :=
  if tools = [] then []
  else
    let scored := tools.map (fun t => (t, score_tool task context t))
    let sorted := sortScoredDesc scored
    ((sorted.filter (fun p => 0 < p.2)).map Prod.fst).take top_n

/-! ## Claim C1: the scoring formula -/

/-- The score formula exactly as the specification states it: weights 10/3/2
on exact-token intersections with the expanded query, 5/1 on partial-match
scores computed from the unexpanded query tokens, and 0 for an empty
combined query. -/
def scoreSpecC1 (task context : String) (tool : Tool) : ℕ :=
  let queryTokens := pyTokens task ∪ pyTokens context
  if queryTokens = ∅ then 0
  else
    let expandedQuery := queryTokens ∪ queryTokens.biUnion SYNONYMS
    let nameStr := strLower (pyOrStr tool.name "")
    let descStr := strLower (pyOrStr tool.description "")
    let slugStr := strLower (pyOrStr tool.gatewaySlug (pyOrStr tool.gateway_slug ""))
    10 * (expandedQuery ∩ pyTokens nameStr).card +
    3 * (expandedQuery ∩ pyTokens descStr).card +
    2 * (expandedQuery ∩ pyTokens slugStr).card +
    5 * partialMatchScore queryTokens nameStr +
    1 * partialMatchScore queryTokens descStr

/-- Tokenizing the empty string yields no tokens. -/
theorem pyTokens_empty : pyTokens "" = ∅ := rfl

/-- C1: for every task string, context string, and tool descriptor,
`score_tool` equals exactly the specification formula
`10*|expandedQuery ∩ nameTokens| + 3*|expandedQuery ∩ descTokens| +
2*|expandedQuery ∩ slugTokens| + 5*partialMatch(queryTokens, name) +
1*partialMatch(queryTokens, desc)`, with one-level synonym expansion,
partial matching over the unexpanded query tokens, and score 0 on an
empty combined query. -/
theorem claim_C1_score_formula (task context : String) (tool : Tool) :
    score_tool task context tool = scoreSpecC1 task context tool := by
  have hctx : (if context = "" then (∅ : Finset String) else pyTokens context)
      = pyTokens context := by
    split
    · rename_i h; rw [h]; rfl
    · rfl
  unfold score_tool scoreSpecC1 expandWithSynonyms
  rw [hctx]
  by_cases hc : pyTokens task ∪ pyTokens context = ∅
  · rw [if_pos hc, if_pos hc]
  · rw [if_neg hc, if_neg hc]; ring

/-! ## Claim C2: `pick_best_tools` selection -/

/-- Inserting preserves the multiset of elements. -/
theorem insertDesc_perm {α : Type} (a : α × ℕ) (l : List (α × ℕ)) :
    List.Perm (insertDesc a l) (a :: l) := by
  induction l with
  | nil => exact List.Perm.refl _
  | cons b l ih =>
    rw [insertDesc]
    split
    · exact List.Perm.refl _
    · exact (ih.cons b).trans (List.Perm.swap a b l)

/-- Inserting into a descending list keeps it descending. -/
theorem insertDesc_pairwise {α : Type} (a : α × ℕ) (l : List (α × ℕ))
    (h : l.Pairwise (fun p q => q.2 ≤ p.2)) :
    (insertDesc a l).Pairwise (fun p q => q.2 ≤ p.2) := by
  induction l with
  | nil => simp [insertDesc]
  | cons b l ih =>
    rw [insertDesc]
    split
    · rename_i hba
      refine List.Pairwise.cons ?_ h
      intro q hq
      rcases List.mem_cons.mp hq with hq | hq
      · subst hq; exact hba
      · exact le_trans ((List.pairwise_cons.mp h).1 q hq) hba
    · rename_i hba
      have hab : a.2 ≤ b.2 := le_of_lt (lt_of_not_le hba)
      refine List.Pairwise.cons ?_ (ih (List.Pairwise.of_cons h))
      intro q hq
      rcases List.mem_cons.mp ((insertDesc_perm a l).mem_iff.mp hq) with hq | hq
      · subst hq; exact hab
      · exact (List.pairwise_cons.mp h).1 q hq

/-- Stability of insertion: the sublist of entries with any fixed score is
either unchanged or gains the inserted entry at its front. -/
theorem insertDesc_filter_key {α : Type} (a : α × ℕ) (l : List (α × ℕ)) (k : ℕ) :
    (insertDesc a l).filter (fun p => p.2 = k)
      = if a.2 = k then a :: l.filter (fun p => p.2 = k)
        else l.filter (fun p => p.2 = k) := by
  induction l with
  | nil =>
    rw [insertDesc]
    by_cases hak : a.2 = k <;> simp [List.filter_cons, hak]
  | cons b l ih =>
    rw [insertDesc]
    split
    · rename_i hba
      by_cases hak : a.2 = k <;> simp [List.filter_cons, hak]
    · rename_i hba
      have hb : a.2 < b.2 := lt_of_not_le hba
      by_cases hak : a.2 = k
      · have hbk : ¬ b.2 = k := by omega
        simp [List.filter_cons, hak, hbk, ih]
      · by_cases hbk : b.2 = k <;> simp [List.filter_cons, hak, hbk, ih]

/-- The stable sort is a permutation of its input. -/
theorem sortScoredDesc_perm {α : Type} (l : List (α × ℕ)) :
    List.Perm (sortScoredDesc l) l := by
  induction l with
  | nil => exact List.Perm.refl _
  | cons a l ih => exact (insertDesc_perm a (sortScoredDesc l)).trans (ih.cons a)

/-- The stable sort produces a descending list. -/
theorem sortScoredDesc_pairwise {α : Type} (l : List (α × ℕ)) :
    (sortScoredDesc l).Pairwise (fun p q => q.2 ≤ p.2) := by
  induction l with
  | nil => simp [sortScoredDesc]
  | cons a l ih => exact insertDesc_pairwise a _ ih

/-- Stability of the sort: for every score value, the entries carrying that
score appear in exactly their original relative order. -/
theorem sortScoredDesc_filter_key {α : Type} (l : List (α × ℕ)) (k : ℕ) :
    (sortScoredDesc l).filter (fun p => p.2 = k) = l.filter (fun p => p.2 = k) := by
  induction l with
  | nil => rfl
  | cons a l ih =>
    rw [sortScoredDesc, insertDesc_filter_key]
    by_cases hak : a.2 = k <;> simp [List.filter_cons, hak, ih]

/-- Filtering positively-scored pairs commutes with pairing tools with
their scores. -/
theorem filter_pos_map_score (tools : List Tool) (f : Tool → ℕ) :
    ((tools.map (fun t => (t, f t))).filter (fun p => 0 < p.2))
      = (tools.filter (fun t => 0 < f t)).map (fun t => (t, f t)) := by
  induction tools with
  | nil => rfl
  | cons t ts ih => by_cases h : 0 < f t <;> simp [List.filter_cons, h, ih]

/-- C2: `pick_best_tools` returns `[]` on an empty catalog; otherwise it
returns exactly the strictly-positively-scored tools, ordered by descending
score with ties kept in original catalog order (the sort is a stable
descending permutation of the scored catalog), truncated to at most
`top_n` elements. -/
theorem claim_C2_pick_best_tools (tools : List Tool) (task context : String) (n : ℕ) :
    pick_best_tools [] task context n = [] ∧
    (∀ t ∈ pick_best_tools tools task context n, 0 < score_tool task context t) ∧
    (pick_best_tools tools task context n).length ≤ n ∧
    pick_best_tools tools task context n
      = (((sortScoredDesc (tools.map (fun t => (t, score_tool task context t)))).filter
            (fun p => 0 < p.2)).map Prod.fst).take n ∧
    (pick_best_tools tools task context n).Pairwise
      (fun a b => score_tool task context b ≤ score_tool task context a) ∧
    (∀ k, (sortScoredDesc (tools.map (fun t => (t, score_tool task context t)))).filter
            (fun p => p.2 = k)
          = (tools.map (fun t => (t, score_tool task context t))).filter (fun p => p.2 = k)) ∧
    List.Perm
      (((sortScoredDesc (tools.map (fun t => (t, score_tool task context t)))).filter
          (fun p => 0 < p.2)).map Prod.fst)
      (tools.filter (fun t => 0 < score_tool task context t)) := by
  set f : Tool → ℕ := score_tool task context with hf
  set scored : List (Tool × ℕ) := tools.map (fun t => (t, f t)) with hscored
  have heq : pick_best_tools tools task context n
      = (((sortScoredDesc scored).filter (fun p => 0 < p.2)).map Prod.fst).take n := by
    unfold pick_best_tools
    split
    · rename_i h; rw [hscored, h]; simp [sortScoredDesc]
    · rfl
  have hmem : ∀ p ∈ sortScoredDesc scored, p.2 = f p.1 := by
    intro p hp
    have hpm : p ∈ scored := (sortScoredDesc_perm scored).mem_iff.mp hp
    rcases List.mem_map.mp hpm with ⟨t, _, hts⟩
    rw [← hts]
  refine ⟨?_, ?_, ?_, heq, ?_, ?_, ?_⟩
  · unfold pick_best_tools; rfl
  · intro t ht
    rw [heq] at ht
    rcases List.mem_map.mp (List.mem_of_mem_take ht) with ⟨p, hp, hpt⟩
    have hp2 := List.mem_filter.mp hp
    have hpos : 0 < p.2 := by simpa using hp2.2
    have hval := hmem p hp2.1
    rw [← hpt, ← hval]
    exact hpos
  · rw [heq]; exact List.length_take_le n _
  · have hpw := sortScoredDesc_pairwise scored
    have hfw := hpw.filter (fun p => 0 < p.2)
    have hfw2 : ((sortScoredDesc scored).filter (fun p => 0 < p.2)).Pairwise
        (fun p q => f q.1 ≤ f p.1) := by
      refine hfw.imp_of_mem ?_
      intro a b ha hb hr
      rw [← hmem a (List.mem_filter.mp ha).1, ← hmem b (List.mem_filter.mp hb).1]
      exact hr
    have hmapped : (((sortScoredDesc scored).filter (fun p => 0 < p.2)).map Prod.fst).Pairwise
        (fun a b => f b ≤ f a) := List.pairwise_map.mpr hfw2
    rw [heq]
    exact hmapped.sublist (List.take_sublist n _)
  · intro k
    exact sortScoredDesc_filter_key scored k
  · have h1 := (sortScoredDesc_perm scored).filter (fun p => 0 < p.2)
    have h2 := filter_pos_map_score tools f
    have h3 := h1.map Prod.fst
    rw [hscored] at h3 ⊢
    rw [h2] at h3
    simpa [Function.comp_def] using h3

/-- The `search_web` tool of the specification's worked example. -/
def toolSearchWeb : Tool := ⟨some "search_web", some "Search the web", none, none⟩

/-- The `list_files` tool of the specification's worked example. -/
def toolListFiles : Tool := ⟨some "list_files", some "List files", none, none⟩

/-- Witness for C2 at the specification's worked example: `search_web` is
selected from the two-tool catalog and its score is strictly positive. -/
theorem claim_C2_witness :
    0 < score_tool "search the web for python docs" "" toolSearchWeb :=
  (claim_C2_pick_best_tools [toolListFiles, toolSearchWeb]
      "search the web for python docs" "" 1).2.1 toolSearchWeb (by decide)

/-! ## JSON values and a model of `json.loads`

Python's `json.loads` is modelled by a strict recursive-descent parser over
the character list: objects, arrays, strings (with the standard escapes),
numbers (as exact rationals), booleans and null.  The non-standard `NaN` /
`Infinity` extensions of the Python parser are not modelled; no claim
exercises them.  A successful parse requires the whole input to be consumed
up to trailing whitespace, exactly as `json.loads` does. -/

inductive JVal : Type where
  | null : JVal
  | bool (b : Bool) : JVal
  | num (q : ℚ) : JVal
  | str (s : String) : JVal
  | arr (elems : List JVal) : JVal
  | obj (fields : List (String × JVal)) : JVal
deriving BEq, Repr

/-- JSON whitespace (the four characters `json.loads` skips). -/
def jsonWs (c : Char) : Bool :=
  c = ' ' || c = '\t' || c = '\n' || c = '\r'

/-- Drop leading JSON whitespace. -/
def skipWs : List Char → List Char
  | [] => []
  | c :: rest => if jsonWs c then skipWs rest else c :: rest

/-- Hexadecimal digit value. -/
def hexVal (c : Char) : Option ℕ :=
  if '0' ≤ c && c ≤ '9' then some (c.toNat - 48)
  else if 'a' ≤ c && c ≤ 'f' then some (c.toNat - 87)
  else if 'A' ≤ c && c ≤ 'F' then some (c.toNat - 55)
  else none

/-- Parse the body of a JSON string after the opening quote, handling the
standard escapes; strict mode rejects raw control characters. -/
def parseStrBody : List Char → List Char → Option (String × List Char)
  | [], _ => none
  | '"' :: rest, acc => some (String.mk acc.reverse, rest)
  | '\\' :: '"' :: rest, acc => parseStrBody rest ('"' :: acc)
  | '\\' :: '\\' :: rest, acc => parseStrBody rest ('\\' :: acc)
  | '\\' :: '/' :: rest, acc => parseStrBody rest ('/' :: acc)
  | '\\' :: 'b' :: rest, acc => parseStrBody rest (Char.ofNat 8 :: acc)
  | '\\' :: 'f' :: rest, acc => parseStrBody rest (Char.ofNat 12 :: acc)
  | '\\' :: 'n' :: rest, acc => parseStrBody rest ('\n' :: acc)
  | '\\' :: 'r' :: rest, acc => parseStrBody rest ('\r' :: acc)
  | '\\' :: 't' :: rest, acc => parseStrBody rest ('\t' :: acc)
  | '\\' :: 'u' :: a :: b :: c :: d :: rest, acc =>
    match hexVal a, hexVal b, hexVal c, hexVal d with
    | some ha, some hb, some hc, some hd =>
      parseStrBody rest (Char.ofNat (((ha * 16 + hb) * 16 + hc) * 16 + hd) :: acc)
    | _, _, _, _ => none
  | '\\' :: _, _ => none
  | c :: rest, acc => if c.toNat < 32 then none else parseStrBody rest (c :: acc)

/-- Decimal digits to a natural number. -/
def digitsToNat (ds : List Char) : ℕ :=
  ds.foldl (fun n c => n * 10 + (c.toNat - 48)) 0

/-- Parse an optional fraction part: numerator, digit count, rest. -/
def parseFrac : List Char → Option (ℕ × ℕ × List Char)
  | '.' :: r =>
    let fs := r.takeWhile Char.isDigit
    if fs.isEmpty then none
    else some (digitsToNat fs, fs.length, r.dropWhile Char.isDigit)
  | l => some (0, 0, l)

/-- Parse exponent digits after an optional sign. -/
def parseExpDigits (neg : Bool) (l : List Char) : Option (Bool × ℕ × List Char) :=
  let ds := l.takeWhile Char.isDigit
  if ds.isEmpty then none
  else some (neg, digitsToNat ds, l.dropWhile Char.isDigit)

/-- Parse an exponent sign and digits. -/
def parseExpSign : List Char → Option (Bool × ℕ × List Char)
  | '+' :: r => parseExpDigits false r
  | '-' :: r => parseExpDigits true r
  | l => parseExpDigits false l

/-- Parse an optional exponent part. -/
def parseExp : List Char → Option (Bool × ℕ × List Char)
  | 'e' :: r => parseExpSign r
  | 'E' :: r => parseExpSign r
  | l => some (false, 0, l)

/-- Assemble a rational from sign, integer part, fraction and exponent. -/
def mkNum (neg : Bool) (ip fn fd : ℕ) (en : Bool) (e : ℕ) : ℚ :=
  let base : ℚ := (ip : ℚ) + (fn : ℚ) / ((10 : ℚ) ^ fd)
  let scaled := if en then base / (10 : ℚ) ^ e else base * (10 : ℚ) ^ e
  if neg then -scaled else scaled

/-- Parse the unsigned part of a JSON number (leading zeros rejected, as in
the JSON grammar). -/
def parseNumAbs (neg : Bool) (l1 : List Char) : Option (ℚ × List Char) :=
  let ds := l1.takeWhile Char.isDigit
  if ds.isEmpty then none
  else if 2 ≤ ds.length && ds.headD '1' = '0' then none
  else
    match parseFrac (l1.dropWhile Char.isDigit) with
    | none => none
    | some (fn, fd, r2) =>
      match parseExp r2 with
      | none => none
      | some (en, e, r3) => some (mkNum neg (digitsToNat ds) fn fd en e, r3)

/-- Parse a JSON number. -/
def parseNumber : List Char → Option (ℚ × List Char)
  | '-' :: r => parseNumAbs true r
  | l => parseNumAbs false l

mutual

/-- Parse one JSON value; the fuel bounds recursion depth and is chosen
large enough for any input of the given length. -/
def parseVal : ℕ → List Char → Option (JVal × List Char)
  | 0, _ => none
  | _ + 1, [] => none
  | fuel + 1, c :: rest =>
    if c = '"' then
      match parseStrBody rest [] with
      | some (s, r) => some (JVal.str s, r)
      | none => none
    else if c = '\x7b' then parseObjBody fuel (skipWs rest)
    else if c = '[' then parseArrBody fuel (skipWs rest)
    else if c = 't' then
      match rest with
      | 'r' :: 'u' :: 'e' :: r => some (JVal.bool true, r)
      | _ => none
    else if c = 'f' then
      match rest with
      | 'a' :: 'l' :: 's' :: 'e' :: r => some (JVal.bool false, r)
      | _ => none
    else if c = 'n' then
      match rest with
      | 'u' :: 'l' :: 'l' :: r => some (JVal.null, r)
      | _ => none
    else
      match parseNumber (c :: rest) with
      | some (q, r) => some (JVal.num q, r)
      | none => none

/-- Parse an object body after the opening brace and whitespace. -/
def parseObjBody : ℕ → List Char → Option (JVal × List Char)
  | 0, _ => none
  | fuel + 1, l =>
    match l with
    | '\x7d' :: r => some (JVal.obj [], r)
    | _ => parseMembers fuel l []

/-- Parse the members of a non-empty object. -/
def parseMembers : ℕ → List Char → List (String × JVal) → Option (JVal × List Char)
  | 0, _, _ => none
  | fuel + 1, l, acc =>
    match l with
    | '"' :: r =>
      match parseStrBody r [] with
      | none => none
      | some (k, r1) =>
        match skipWs r1 with
        | ':' :: r2 =>
          match parseVal fuel (skipWs r2) with
          | none => none
          | some (v, r3) =>
            match skipWs r3 with
            | ',' :: r4 => parseMembers fuel (skipWs r4) ((k, v) :: acc)
            | '\x7d' :: r4 => some (JVal.obj ((k, v) :: acc).reverse, r4)
            | _ => none
        | _ => none
    | _ => none

/-- Parse an array body after the opening bracket and whitespace. -/
def parseArrBody : ℕ → List Char → Option (JVal × List Char)
  | 0, _ => none
  | fuel + 1, l =>
    match l with
    | ']' :: r => some (JVal.arr [], r)
    | _ => parseElems fuel l []

/-- Parse the elements of a non-empty array. -/
def parseElems : ℕ → List Char → List JVal → Option (JVal × List Char)
  | 0, _, _ => none
  | fuel + 1, l, acc =>
    match parseVal fuel l with
    | none => none
    | some (v, r) =>
      match skipWs r with
      | ',' :: r2 => parseElems fuel (skipWs r2) (v :: acc)
      | ']' :: r2 => some (JVal.arr (v :: acc).reverse, r2)
      | _ => none

end

/-- Embeds `json.loads` on a character list: parse one value and require
only whitespace to remain. -/
def loadsChars (l : List Char) : Option JVal :=
  match parseVal (2 * l.length + 8) (skipWs l) with
  | some (v, rest) => if (skipWs rest).isEmpty then some v else none
  | none => none

/-! ## Python string search, slicing, and dict access -/

/-- Python `str.find(sub, start)`: least index at least `start` where `sub`
occurs; `none` stands for Python's `-1`. -/
def strFindFrom (l sub : List Char) (start : ℕ) : Option ℕ :=
  ((List.range (l.length + 1)).filter
    (fun i => decide (start ≤ i) && sub.isPrefixOf (l.drop i))).head?

/-- Python `str.find(sub)`. -/
def strFind (l sub : List Char) : Option ℕ :=
  strFindFrom l sub 0

/-- Python `str.rfind(sub)`: greatest index where `sub` occurs. -/
def strRFind (l sub : List Char) : Option ℕ :=
  ((List.range (l.length + 1)).filter
    (fun i => sub.isPrefixOf (l.drop i))).getLast?

/-- Python slice `l[a:b]` with nonnegative start and possibly negative end. -/
def pySlice (l : List Char) (a : ℕ) (b : ℤ) : List Char :=
  let bN : ℕ := if b < 0 then l.length - (-b).toNat else min b.toNat l.length
  (l.take bN).drop a

/-- Lookup in a parsed JSON object, later duplicate keys winning as in a
Python dict built by `json.loads`. -/
def jGet (fields : List (String × JVal)) (k : String) : Option JVal :=
  match fields.reverse.find? (fun p => p.1 == k) with
  | some p => some p.2
  | none => none

/-- Python `key in dict`. -/
def jHas (fields : List (String × JVal)) (k : String) : Bool :=
  (jGet fields k).isSome

/-- Python `dict[key] = value` for an existing key, observed through `jGet`. -/
def jSet (fields : List (String × JVal)) (k : String) (v : JVal) :
    List (String × JVal) :=
  fields.map (fun p => if p.1 == k then (p.1, v) else p)

/-- Embeds `isinstance(x, (int, float))`: Python booleans are integers, so
they pass this check. -/
def isNumericPy : JVal → Bool
  | JVal.num _ => true
  | JVal.bool _ => true
  | _ => false

/-- Numeric value of a Python number, with `True = 1` and `False = 0`. -/
def pyNumVal : JVal → ℚ
  | JVal.num q => q
  | JVal.bool b => if b then 1 else 0
  | _ => 0

/-! ## Provider clients (`tool_router/ai/enhanced_selector.py`) -/

/-- Embeds the JSON extraction of `OllamaSelector._parse_response` /
`_parse_multi_response`: slice from the first open brace (`find`) to one
past the last closing brace (`rfind + 1`); `none` when either search
fails (`start_idx == -1 or end_idx == 0`). -/
def ollamaExtract (response : String) : Option (List Char) :=
  let l := response.data
  match strFind l ['\x7b'] with
  | none => none
  | some s =>
    match strRFind l ['\x7d'] with
    | none => none
    | some e => some (pySlice l s ((e : ℤ) + 1))

/-- Embeds the JSON extraction of `OpenAISelector._parse_response` /
`_parse_multi_response`: when a markdown fence `BtBtBtjson` is present
(Bt the backtick), slice from after it to the next `BtBtBt` (or, when no
closing fence exists, `find` yields `-1` and the Python slice end `-1`
drops only the final character); otherwise the Ollama-style
first-brace-to-last-brace slice. -/
def openaiExtract (response : String) : Option (List Char) :=
  let l := response.data
  match strFind l ("```json".data) with
  | some fi =>
    let s := fi + 7
    match strFindFrom l ("```".data) s with
    | some e => some (pySlice l s (e : ℤ))
    | none => some (pySlice l s (-1))
  | none =>
    match strFind l ['\x7b'], strRFind l ['\x7d'] with
    | some s, some e => some (pySlice l s ((e : ℤ) + 1))
    | _, _ => none

/-- Embeds the validation in `_parse_response` (enhanced_selector.py lines
220-227): all of `tool_name`/`confidence`/`reasoning` present, and the
confidence passing `isinstance(confidence, (int, float))` and
`0 <= confidence <= 1`.  A non-dict parse result always yields `none`
(`all(key in ...)` is false, or the indexing `TypeError` is caught by the
blanket `except`). -/
def validateSingle : JVal → Option (List (String × JVal))
  | JVal.obj fields =>
    if jHas fields "tool_name" && jHas fields "confidence" && jHas fields "reasoning" then
      match jGet fields "confidence" with
      | some conf =>
        if isNumericPy conf && decide (0 ≤ pyNumVal conf) && decide (pyNumVal conf ≤ 1)
        then some fields else none
      | none => none
    else none
  | _ => none

/-- The set `valid_names = \x7bt.get("name", "") for t in available_tools\x7d`. -/
def validNames (available_tools : List Tool) : List String :=
  available_tools.map (fun t => t.name.getD "")

/-- Membership of a parsed JSON element in `valid_names`: only strings can
match. -/
def isValidToolName (names : List String) : JVal → Bool
  | JVal.str s => names.contains s
  | _ => false

/-- Embeds the validation in `_parse_multi_response` (lines 251-270):
required keys, `tools` must be a non-empty JSON list, confidence checked as
in the single case, then non-matching names are silently filtered out and
the result is rejected if no name matches. -/
def validateMulti (j : JVal) (available_tools : List Tool) :
    Option (List (String × JVal)) :=
  match j with
  | JVal.obj fields =>
    if jHas fields "tools" && jHas fields "confidence" && jHas fields "reasoning" then
      match jGet fields "tools" with
      | some (JVal.arr ts) =>
        if ts.isEmpty then none
        else
          match jGet fields "confidence" with
          | some conf =>
            if isNumericPy conf && decide (0 ≤ pyNumVal conf) && decide (pyNumVal conf ≤ 1)
            then
              let valid_tools := ts.filter (isValidToolName (validNames available_tools))
              if valid_tools.isEmpty then none
              else some (jSet fields "tools" (JVal.arr valid_tools))
            else none
          | none => none
      | _ => none
    else none
  | _ => none

/-- Embeds `OllamaSelector._parse_response`. -/
def OllamaSelector.parse_response (response : String) :
    Option (List (String × JVal)) :=
  match ollamaExtract response with
  | none => none
  | some chars =>
    match loadsChars chars with
    | none => none
    | some j => validateSingle j

/-- Embeds `OllamaSelector._parse_multi_response`. -/
def OllamaSelector.parse_multi_response (response : String)
    (available_tools : List Tool) : Option (List (String × JVal)) :=
  match ollamaExtract response with
  | none => none
  | some chars =>
    match loadsChars chars with
    | none => none
    | some j => validateMulti j available_tools

/-- Embeds `OpenAISelector._parse_response` (also used unchanged by
`AnthropicSelector`). -/
def OpenAISelector.parse_response (response : String) :
    Option (List (String × JVal)) :=
  match openaiExtract response with
  | none => none
  | some chars =>
    match loadsChars chars with
    | none => none
    | some j => validateSingle j

/-- Embeds `OpenAISelector._parse_multi_response` (also used unchanged by
`AnthropicSelector`). -/
def OpenAISelector.parse_multi_response (response : String)
    (available_tools : List Tool) : Option (List (String × JVal)) :=
  match openaiExtract response with
  | none => none
  | some chars =>
    match loadsChars chars with
    | none => none
    | some j => validateMulti j available_tools

/-- Outcome of one backend HTTP call: the provider code's `try` block either
produces the response text or lands in one of the `except` arms
(`httpx.TimeoutException`, `httpx.HTTPStatusError`, blanket `Exception`). -/
inductive CallOutcome : Type where
  | success (text : String) : CallOutcome
  | timeout : CallOutcome
  | httpError : CallOutcome
  | otherError : CallOutcome

/-- The string `_call_ollama` / `_call_openai` / `_call_anthropic` returns:
every `except` arm logs and returns `None`. -/
def callText : CallOutcome → Option String
  | CallOutcome.success t => some t
  | _ => none

/-- The default `min_confidence` of `BaseAISelector`. -/
def defaultMinConfidence : ℚ := 3 / 10

/-- Embeds `OllamaSelector.select_tool`: empty catalog, failed or empty
response, failed parse, or confidence below the threshold each yield
`none`. -/
def OllamaSelector.select_tool (tools : List Tool) (call : CallOutcome)
    (min_confidence : ℚ) : Option (List (String × JVal)) :=
  if tools.isEmpty then none
  else
    match callText call with
    | none => none
    | some response =>
      if response = "" then none
      else
        match OllamaSelector.parse_response response with
        | none => none
        | some result =>
          match jGet result "confidence" with
          | some conf =>
            if pyNumVal conf < min_confidence then none else some result
          | none => none

/-- Embeds `OllamaSelector.select_tools_multi`. -/
def OllamaSelector.select_tools_multi (tools : List Tool) (call : CallOutcome)
    (min_confidence : ℚ) : Option (List (String × JVal)) :=
  if tools.isEmpty then none
  else
    match callText call with
    | none => none
    | some response =>
      if response = "" then none
      else
        match OllamaSelector.parse_multi_response response tools with
        | none => none
        | some result =>
          match jGet result "confidence" with
          | some conf =>
            if pyNumVal conf < min_confidence then none else some result
          | none => none

/-- Embeds `OpenAISelector.select_tool`. -/
def OpenAISelector.select_tool (tools : List Tool) (call : CallOutcome)
    (min_confidence : ℚ) : Option (List (String × JVal)) :=
  if tools.isEmpty then none
  else
    match callText call with
    | none => none
    | some response =>
      if response = "" then none
      else
        match OpenAISelector.parse_response response with
        | none => none
        | some result =>
          match jGet result "confidence" with
          | some conf =>
            if pyNumVal conf < min_confidence then none else some result
          | none => none

/-- Embeds `OpenAISelector.select_tools_multi`. -/
def OpenAISelector.select_tools_multi (tools : List Tool) (call : CallOutcome)
    (min_confidence : ℚ) : Option (List (String × JVal)) :=
  if tools.isEmpty then none
  else
    match callText call with
    | none => none
    | some response =>
      if response = "" then none
      else
        match OpenAISelector.parse_multi_response response tools with
        | none => none
        | some result =>
          match jGet result "confidence" with
          | some conf =>
            if pyNumVal conf < min_confidence then none else some result
          | none => none

/-! ## The multi-provider pool (`EnhancedAISelector`) -/

/-- Outcome of asking one configured provider, as seen by
`EnhancedAISelector.select_tool`: either the provider returned normally
(with `None` or a validated result dict) or it raised, landing in the
`except` arm.  A validated result dict always carries a numeric
`confidence`, carried here as the first component. -/
inductive ProviderOutcome : Type where
  | ok (result : Option (ℚ × List (String × JVal))) : ProviderOutcome
  | exn : ProviderOutcome

/-- The provider loop of `EnhancedAISelector.select_tool`: walk the
providers in order, skipping raised exceptions and `None` results, and stop
at the first non-`None` result, remembering its position. -/
def firstSuccess : List ProviderOutcome → ℕ → Option ((ℚ × List (String × JVal)) × ℕ)
  | [], _ => none
  | ProviderOutcome.ok (some r) :: _, i => some (r, i)
  | _ :: rest, i => firstSuccess rest (i + 1)

/-- Embeds `EnhancedAISelector.select_tool` (lines 673-726): empty catalog
or provider list yields `none`; the first provider with a non-`None` result
wins (the loop `break`s); its confidence is multiplied by `primary_weight`
when it was the first provider and `fallback_weight` otherwise; an adjusted
confidence below `min_confidence` discards everything.  The returned pair
is the winning result together with its `adjusted_confidence`. -/
def EnhancedAISelector.select_tool (tools : List Tool)
    (providers : List ProviderOutcome)
    (primary_weight fallback_weight min_confidence : ℚ) :
    Option ((ℚ × List (String × JVal)) × ℚ) :=
  if tools.isEmpty || providers.isEmpty then none
  else
    match firstSuccess providers 0 with
    | none => none
    | some (r, i) =>
      let weight := if i = 0 then primary_weight else fallback_weight
      let adjusted := r.1 * weight
      if adjusted < min_confidence then none else some (r, adjusted)

/-- A provider attempt that does not produce a result: it raised, or it
returned `None`. -/
def providerFailed (p : ProviderOutcome) : Prop :=
  p = ProviderOutcome.exn ∨ p = ProviderOutcome.ok none

/-- The provider loop skips failed providers and finds the first success at
its position. -/
theorem firstSuccess_append (pre post : List ProviderOutcome)
    (r : ℚ × List (String × JVal)) (i : ℕ)
    (hpre : ∀ p ∈ pre, providerFailed p) :
    firstSuccess (pre ++ ProviderOutcome.ok (some r) :: post) i
      = some (r, i + pre.length) := by
  induction pre generalizing i with
  | nil => simp [firstSuccess]
  | cons p pre ih =>
    have hp := hpre p (List.mem_cons_self p pre)
    have hrest : ∀ q ∈ pre, providerFailed q :=
      fun q hq => hpre q (List.mem_cons_of_mem p hq)
    rcases hp with hp | hp <;> subst hp <;>
      simp [firstSuccess, ih _ hrest, Nat.add_assoc, Nat.add_comm 1 pre.length]

/-- If every provider fails, the loop finds nothing. -/
theorem firstSuccess_all_failed (providers : List ProviderOutcome) (i : ℕ)
    (h : ∀ p ∈ providers, providerFailed p) :
    firstSuccess providers i = none := by
  induction providers generalizing i with
  | nil => rfl
  | cons p rest ih =>
    have hp := h p (List.mem_cons_self p rest)
    have hrest : ∀ q ∈ rest, providerFailed q :=
      fun q hq => h q (List.mem_cons_of_mem p hq)
    rcases hp with hp | hp <;> subst hp <;> simp [firstSuccess, ih _ hrest]

/-- C3: the pool tries providers in priority order; the first non-`None`
result wins and no later provider is consulted (`post` is arbitrary and
absent from the right-hand side); the winner's confidence times the
applicable weight (`primary_weight` iff it was the first provider) is
compared against `min_confidence`, and falling below it makes the whole
call return `none` without retrying later providers; raising providers and
`None` results merely advance the loop; if all providers fail the call
returns `none`. -/
theorem claim_C3_provider_pool (tools : List Tool) (pre post : List ProviderOutcome)
    (r : ℚ × List (String × JVal)) (pW fW mc : ℚ)
    (htools : tools ≠ [])
    (hpre : ∀ p ∈ pre, providerFailed p) :
    (EnhancedAISelector.select_tool tools (pre ++ ProviderOutcome.ok (some r) :: post) pW fW mc
      = if r.1 * (if pre.isEmpty then pW else fW) < mc then none
        else some (r, r.1 * (if pre.isEmpty then pW else fW))) ∧
    (∀ providers : List ProviderOutcome, (∀ p ∈ providers, providerFailed p) →
      EnhancedAISelector.select_tool tools providers pW fW mc = none) := by
  have hte : tools.isEmpty = false := by
    cases tools with
    | nil => exact absurd rfl htools
    | cons t ts => rfl
  constructor
  · unfold EnhancedAISelector.select_tool
    have hne : (pre ++ ProviderOutcome.ok (some r) :: post).isEmpty = false := by
      cases pre <;> rfl
    rw [hte, hne]
    simp only [Bool.or_self, Bool.false_eq_true, if_false]
    rw [firstSuccess_append pre post r 0 hpre]
    simp only [Nat.zero_add]
    cases pre with
    | nil => simp
    | cons p ps => simp [List.isEmpty]
  · intro providers hall
    unfold EnhancedAISelector.select_tool
    cases providers with
    | nil => simp
    | cons p rest =>
      rw [hte, firstSuccess_all_failed (p :: rest) 0 hall]
      rfl

/-- Witness for C3: with two failed providers (one raising, one returning
`None`), a third provider answering with confidence 0.8, and a fourth
provider available, the fallback weight 0.3 brings the adjusted confidence
to 0.24 < 0.3, so the whole call returns `none` and the fourth provider is
never consulted. -/
theorem claim_C3_witness :
    EnhancedAISelector.select_tool [toolSearchWeb]
      ([ProviderOutcome.exn, ProviderOutcome.ok none]
        ++ ProviderOutcome.ok (some (4 / 5, [("tool_name", JVal.str "search_web")]))
          :: [ProviderOutcome.ok (some (1, []))])
      (7 / 10) (3 / 10) (3 / 10) = none := by
  have h := (claim_C3_provider_pool [toolSearchWeb]
      [ProviderOutcome.exn, ProviderOutcome.ok none]
      [ProviderOutcome.ok (some (1, []))]
      (4 / 5, [("tool_name", JVal.str "search_web")])
      (7 / 10) (3 / 10) (3 / 10) (by simp)
      (by
        intro p hp
        simp only [List.mem_cons, List.not_mem_nil, or_false] at hp
        rcases hp with rfl | rfl
        · exact Or.inl rfl
        · exact Or.inr rfl)).1
  rw [h]
  norm_num [List.isEmpty]

/-! ## Error recovery in the provider clients -/

/-- A failed backend call makes `OllamaSelector.select_tool` return `none`. -/
theorem ollama_select_none_of_call_failed (tools : List Tool) (mc : ℚ)
    (call : CallOutcome) (h : callText call = none) :
    OllamaSelector.select_tool tools call mc = none := by
  unfold OllamaSelector.select_tool
  by_cases ht : tools.isEmpty <;> simp [ht, h]

/-- A failed backend call makes `OllamaSelector.select_tools_multi` return
`none`. -/
theorem ollama_multi_none_of_call_failed (tools : List Tool) (mc : ℚ)
    (call : CallOutcome) (h : callText call = none) :
    OllamaSelector.select_tools_multi tools call mc = none := by
  unfold OllamaSelector.select_tools_multi
  by_cases ht : tools.isEmpty <;> simp [ht, h]

/-- A failed backend call makes `OpenAISelector.select_tool` return `none`. -/
theorem openai_select_none_of_call_failed (tools : List Tool) (mc : ℚ)
    (call : CallOutcome) (h : callText call = none) :
    OpenAISelector.select_tool tools call mc = none := by
  unfold OpenAISelector.select_tool
  by_cases ht : tools.isEmpty <;> simp [ht, h]

/-- A failed backend call makes `OpenAISelector.select_tools_multi` return
`none`. -/
theorem openai_multi_none_of_call_failed (tools : List Tool) (mc : ℚ)
    (call : CallOutcome) (h : callText call = none) :
    OpenAISelector.select_tools_multi tools call mc = none := by
  unfold OpenAISelector.select_tools_multi
  by_cases ht : tools.isEmpty <;> simp [ht, h]

/-- A failed parse makes `OllamaSelector.select_tool` return `none`. -/
theorem ollama_select_none_of_parse_none (tools : List Tool) (mc : ℚ)
    (response : String) (h : OllamaSelector.parse_response response = none) :
    OllamaSelector.select_tool tools (CallOutcome.success response) mc = none := by
  unfold OllamaSelector.select_tool
  by_cases ht : tools.isEmpty
  · simp [ht]
  · by_cases hr : response = "" <;> simp [ht, hr, callText, h]

/-- A failed parse makes `OllamaSelector.select_tools_multi` return `none`. -/
theorem ollama_multi_none_of_parse_none (tools : List Tool) (mc : ℚ)
    (response : String)
    (h : OllamaSelector.parse_multi_response response tools = none) :
    OllamaSelector.select_tools_multi tools (CallOutcome.success response) mc = none := by
  unfold OllamaSelector.select_tools_multi
  by_cases ht : tools.isEmpty
  · simp [ht]
  · by_cases hr : response = "" <;> simp [ht, hr, callText, h]

/-- A failed parse makes `OpenAISelector.select_tool` return `none`. -/
theorem openai_select_none_of_parse_none (tools : List Tool) (mc : ℚ)
    (response : String) (h : OpenAISelector.parse_response response = none) :
    OpenAISelector.select_tool tools (CallOutcome.success response) mc = none := by
  unfold OpenAISelector.select_tool
  by_cases ht : tools.isEmpty
  · simp [ht]
  · by_cases hr : response = "" <;> simp [ht, hr, callText, h]

/-- A failed parse makes `OpenAISelector.select_tools_multi` return `none`. -/
theorem openai_multi_none_of_parse_none (tools : List Tool) (mc : ℚ)
    (response : String)
    (h : OpenAISelector.parse_multi_response response tools = none) :
    OpenAISelector.select_tools_multi tools (CallOutcome.success response) mc = none := by
  unfold OpenAISelector.select_tools_multi
  by_cases ht : tools.isEmpty
  · simp [ht]
  · by_cases hr : response = "" <;> simp [ht, hr, callText, h]

/-- C4: every backend outcome other than a successful response — transport
timeout, HTTP error, or any other exception while calling the backend —
and every successful response whose parsing fails (no JSON, JSON decode
error, or validation failure) make each provider client's `select_tool`
and `select_tools_multi` return `none`.  The select functions are total
Lean functions over the outcome type, modelling that no exception from the
call or the parsing propagates to the caller. -/
theorem claim_C4_error_recovery (tools : List Tool) (mc : ℚ) :
    (∀ call : CallOutcome, callText call = none →
      OllamaSelector.select_tool tools call mc = none ∧
      OllamaSelector.select_tools_multi tools call mc = none ∧
      OpenAISelector.select_tool tools call mc = none ∧
      OpenAISelector.select_tools_multi tools call mc = none) ∧
    (∀ response : String, OllamaSelector.parse_response response = none →
      OllamaSelector.select_tool tools (CallOutcome.success response) mc = none) ∧
    (∀ response : String, OllamaSelector.parse_multi_response response tools = none →
      OllamaSelector.select_tools_multi tools (CallOutcome.success response) mc = none) ∧
    (∀ response : String, OpenAISelector.parse_response response = none →
      OpenAISelector.select_tool tools (CallOutcome.success response) mc = none) ∧
    (∀ response : String, OpenAISelector.parse_multi_response response tools = none →
      OpenAISelector.select_tools_multi tools (CallOutcome.success response) mc = none) :=
  ⟨fun call hc =>
    ⟨ollama_select_none_of_call_failed tools mc call hc,
     ollama_multi_none_of_call_failed tools mc call hc,
     openai_select_none_of_call_failed tools mc call hc,
     openai_multi_none_of_call_failed tools mc call hc⟩,
   fun r hr => ollama_select_none_of_parse_none tools mc r hr,
   fun r hr => ollama_multi_none_of_parse_none tools mc r hr,
   fun r hr => openai_select_none_of_parse_none tools mc r hr,
   fun r hr => openai_multi_none_of_parse_none tools mc r hr⟩

/-- Witness for C4: a timed-out call and a JSON-free response each produce
`none` on the example catalog. -/
theorem claim_C4_witness :
    OllamaSelector.select_tool [toolSearchWeb] CallOutcome.timeout (3 / 10) = none ∧
    OllamaSelector.select_tool [toolSearchWeb]
      (CallOutcome.success "no json here") (3 / 10) = none :=
  ⟨((claim_C4_error_recovery [toolSearchWeb] (3 / 10)).1 CallOutcome.timeout rfl).1,
   (claim_C4_error_recovery [toolSearchWeb] (3 / 10)).2.1 "no json here"
     (by with_unfolding_all rfl)⟩

/-! ## Validation of parsed provider responses -/

/-- The JSON value a response yields under the Ollama-style extraction:
slice, then `json.loads`. -/
def extractedJsonOllama (response : String) : Option JVal :=
  match ollamaExtract response with
  | none => none
  | some chars => loadsChars chars

/-- The JSON value a response yields under the OpenAI-style extraction. -/
def extractedJsonOpenAI (response : String) : Option JVal :=
  match openaiExtract response with
  | none => none
  | some chars => loadsChars chars

/-- `parse_response` is exactly extraction, then loading, then validation
(Ollama variant). -/
theorem ollama_parse_response_eq (response : String) :
    OllamaSelector.parse_response response
      = (extractedJsonOllama response).bind validateSingle := by
  unfold OllamaSelector.parse_response extractedJsonOllama
  cases ollamaExtract response with
  | none => rfl
  | some chars => cases h : loadsChars chars <;> simp [h]

/-- `parse_response` is exactly extraction, then loading, then validation
(OpenAI variant). -/
theorem openai_parse_response_eq (response : String) :
    OpenAISelector.parse_response response
      = (extractedJsonOpenAI response).bind validateSingle := by
  unfold OpenAISelector.parse_response extractedJsonOpenAI
  cases openaiExtract response with
  | none => rfl
  | some chars => cases h : loadsChars chars <;> simp [h]

/-- The validation rejects an object with a missing required key or an
invalid confidence. -/
theorem validateSingle_none_of_bad (fields : List (String × JVal))
    (hbad : ¬(jHas fields "tool_name" ∧ jHas fields "confidence" ∧
              jHas fields "reasoning") ∨
      (∃ conf, jGet fields "confidence" = some conf ∧
        (isNumericPy conf = false ∨ pyNumVal conf < 0 ∨ 1 < pyNumVal conf))) :
    validateSingle (JVal.obj fields) = none := by
  unfold validateSingle
  rcases hbad with hk | ⟨conf, hcg, hcb⟩
  · have hfalse : (jHas fields "tool_name" && jHas fields "confidence" &&
        jHas fields "reasoning") = false := by
      cases h1 : jHas fields "tool_name" <;>
        cases h2 : jHas fields "confidence" <;>
        cases h3 : jHas fields "reasoning" <;> simp_all
    simp [hfalse]
  · by_cases hk : (jHas fields "tool_name" && jHas fields "confidence" &&
        jHas fields "reasoning") = true
    · have hcond : (isNumericPy conf && decide (0 ≤ pyNumVal conf) &&
          decide (pyNumVal conf ≤ 1)) = false := by
        rcases hcb with h | h | h
        · simp [h]
        · simp [not_le.mpr h]
        · simp [not_le.mpr h]
      simp [hk, hcg, hcond]
    · have hfalse : (jHas fields "tool_name" && jHas fields "confidence" &&
          jHas fields "reasoning") = false := by
        cases h1 : jHas fields "tool_name" <;>
          cases h2 : jHas fields "confidence" <;>
          cases h3 : jHas fields "reasoning" <;> simp_all
      simp [hfalse]

/-- C5: a provider response whose extracted-and-parsed JSON object lacks a
required key, or carries a confidence that fails
`isinstance(confidence, (int, float))` or lies outside `[0, 1]`
(for example 1.5), is rejected: the parse yields `none` and `select_tool`
returns `none`, for both client variants — an out-of-range confidence is
never returned to the caller. -/
theorem claim_C5_invalid_confidence_rejected (fields : List (String × JVal))
    (hbad : ¬(jHas fields "tool_name" ∧ jHas fields "confidence" ∧
              jHas fields "reasoning") ∨
      (∃ conf, jGet fields "confidence" = some conf ∧
        (isNumericPy conf = false ∨ pyNumVal conf < 0 ∨ 1 < pyNumVal conf))) :
    validateSingle (JVal.obj fields) = none ∧
    (∀ response (tools : List Tool) (mc : ℚ),
      extractedJsonOllama response = some (JVal.obj fields) →
      OllamaSelector.parse_response response = none ∧
      OllamaSelector.select_tool tools (CallOutcome.success response) mc = none) ∧
    (∀ response (tools : List Tool) (mc : ℚ),
      extractedJsonOpenAI response = some (JVal.obj fields) →
      OpenAISelector.parse_response response = none ∧
      OpenAISelector.select_tool tools (CallOutcome.success response) mc = none) := by
  have hv := validateSingle_none_of_bad fields hbad
  refine ⟨hv, ?_, ?_⟩
  · intro r tools mc hr
    have hp : OllamaSelector.parse_response r = none := by
      rw [ollama_parse_response_eq, hr, Option.some_bind, hv]
    exact ⟨hp, ollama_select_none_of_parse_none tools mc r hp⟩
  · intro r tools mc hr
    have hp : OpenAISelector.parse_response r = none := by
      rw [openai_parse_response_eq, hr, Option.some_bind, hv]
    exact ⟨hp, openai_select_none_of_parse_none tools mc r hp⟩

/-- The specification's example response with out-of-range confidence 1.5. -/
def respConf15 : String :=
  "\x7b\"tool_name\": \"x\", \"confidence\": 1.5, \"reasoning\": \"r\"\x7d"

/-- The parsed fields of `respConf15`. -/
def fieldsConf15 : List (String × JVal) :=
  [("tool_name", JVal.str "x"), ("confidence", JVal.num (3 / 2)),
   ("reasoning", JVal.str "r")]

/-- Witness for C5: the response with confidence 1.5 is rejected by the
parse and by `select_tool`. -/
theorem claim_C5_witness :
    OllamaSelector.parse_response respConf15 = none ∧
    OllamaSelector.select_tool [toolSearchWeb]
      (CallOutcome.success respConf15) defaultMinConfidence = none :=
  (claim_C5_invalid_confidence_rejected fieldsConf15
      (Or.inr ⟨JVal.num (3 / 2), by with_unfolding_all rfl,
        Or.inr (Or.inr (by norm_num [pyNumVal]))⟩)).2.1
    respConf15 [toolSearchWeb] defaultMinConfidence (by with_unfolding_all rfl)

/-! ## Claim C6: JSON extraction from response text -/

/-- A response whose first balanced JSON block is valid but which is
followed by unrelated text containing further braces. -/
def respC6 : String :=
  "\x7b\"tool_name\": \"a\", \"confidence\": 0.9, \"reasoning\": \"ok\"\x7d and \x7b\x7d"

/-- The first balanced JSON block of `respC6`. -/
def blockC6 : String :=
  "\x7b\"tool_name\": \"a\", \"confidence\": 0.9, \"reasoning\": \"ok\"\x7d"

/-- The parsed fields of `blockC6`. -/
def fieldsC6 : List (String × JVal) :=
  [("tool_name", JVal.str "a"), ("confidence", JVal.num (9 / 10)),
   ("reasoning", JVal.str "ok")]

/-- Counterexample to C6: `respC6` is the valid balanced block `blockC6`
followed by text with further braces; the block alone parses and validates,
so under the claim the response should be accepted — yet both parser
variants reject the response (the code slices from the first open brace to
the last closing brace, which is unparseable JSON here), and `select_tool`
returns `none` on it. -/
theorem claim_C6_counterexample :
    respC6 = blockC6 ++ " and \x7b\x7d" ∧
    loadsChars blockC6.data = some (JVal.obj fieldsC6) ∧
    validateSingle (JVal.obj fieldsC6) = some fieldsC6 ∧
    OllamaSelector.parse_response respC6 = none ∧
    OpenAISelector.parse_response respC6 = none ∧
    OllamaSelector.select_tool [toolSearchWeb]
      (CallOutcome.success respC6) defaultMinConfidence = none :=
  ⟨by with_unfolding_all rfl, by with_unfolding_all rfl,
   by with_unfolding_all rfl, by with_unfolding_all rfl,
   by with_unfolding_all rfl, by with_unfolding_all rfl⟩

/-- C6 (amended): the parser does not seek the first balanced block.  The
Ollama variant slices from the first open brace (`find`) to one past the
last closing brace (`rfind`); the OpenAI variant first unwraps a markdown
`BtBtBtjson` fence when present (slicing up to the closing fence, or up to
the second-to-last character when no closing fence exists) and otherwise
behaves like the Ollama variant; each parse is exactly extraction followed
by `json.loads` and key/confidence validation of the whole slice, so
acceptance depends on the entire slice rather than on the first balanced
block (see the counterexample). -/
theorem claim_C6_amended_extraction :
    (∀ (response : String) (s e : ℕ),
      strFind response.data ['\x7b'] = some s →
      strRFind response.data ['\x7d'] = some e →
      ollamaExtract response = some (pySlice response.data s ((e : ℤ) + 1))) ∧
    (∀ response : String, strFind response.data ['\x7b'] = none →
      ollamaExtract response = none) ∧
    (∀ response : String,
      OllamaSelector.parse_response response
        = (extractedJsonOllama response).bind validateSingle) ∧
    (∀ (response : String) (fi : ℕ),
      strFind response.data ("```json".data) = some fi →
      (∀ e : ℕ, strFindFrom response.data ("```".data) (fi + 7) = some e →
        openaiExtract response = some (pySlice response.data (fi + 7) (e : ℤ))) ∧
      (strFindFrom response.data ("```".data) (fi + 7) = none →
        openaiExtract response = some (pySlice response.data (fi + 7) (-1)))) ∧
    (∀ response : String, strFind response.data ("```json".data) = none →
      openaiExtract response = ollamaExtract response) ∧
    (∀ response : String,
      OpenAISelector.parse_response response
        = (extractedJsonOpenAI response).bind validateSingle) := by
  refine ⟨?_, ?_, fun r => ollama_parse_response_eq r, ?_, ?_,
    fun r => openai_parse_response_eq r⟩
  · intro r s e hs he
    unfold ollamaExtract
    simp only [hs, he]
  · intro r hs
    unfold ollamaExtract
    simp only [hs]
  · intro r fi hf
    constructor
    · intro e he
      unfold openaiExtract
      simp only [hf, he]
    · intro he
      unfold openaiExtract
      simp only [hf, he]
  · intro r hf
    unfold openaiExtract ollamaExtract
    simp only [hf]
    cases strFind r.data ['\x7b'] <;> cases strRFind r.data ['\x7d'] <;> rfl

/-- Witness for the amended C6: on `"x\x7by\x7dz"` the Ollama extraction is
the slice from index 1 to index 4, namely `"\x7by\x7d"`. -/
theorem claim_C6_witness :
    ollamaExtract "x\x7by\x7dz" = some ("\x7by\x7d".data) := by
  have h := claim_C6_amended_extraction.1 "x\x7by\x7dz" 1 3
    (by with_unfolding_all rfl) (by with_unfolding_all rfl)
  rw [h]
  with_unfolding_all rfl

/-! ## Claim C7: multi-tool name filtering -/

/-- `parse_multi_response` is exactly extraction, load, and multi
validation (Ollama variant). -/
theorem ollama_parse_multi_eq (response : String) (catalog : List Tool) :
    OllamaSelector.parse_multi_response response catalog
      = (extractedJsonOllama response).bind (fun j => validateMulti j catalog) := by
  unfold OllamaSelector.parse_multi_response extractedJsonOllama
  cases ollamaExtract response with
  | none => rfl
  | some chars => cases h : loadsChars chars <;> simp [h]

/-- C7: in a multi-tool response whose required keys and confidence pass
validation and whose `tools` field is a JSON list, returned names matching
no catalog name are silently filtered out; the result is kept (with the
filtered list installed) precisely when at least one match remains, while
an empty list, a `tools` value that is not a list, or no surviving match
each yield `none`; at the client level the multi parse is exactly this
validation applied to the extracted JSON. -/
theorem claim_C7_multi_name_filtering (catalog : List Tool) :
    (∀ (fields : List (String × JVal)) (ts : List JVal) (conf : JVal),
      jHas fields "tools" = true → jHas fields "confidence" = true →
      jHas fields "reasoning" = true →
      jGet fields "tools" = some (JVal.arr ts) →
      jGet fields "confidence" = some conf →
      isNumericPy conf = true → 0 ≤ pyNumVal conf → pyNumVal conf ≤ 1 →
      validateMulti (JVal.obj fields) catalog
        = if ts.isEmpty then none
          else if (ts.filter (isValidToolName (validNames catalog))).isEmpty then none
          else some (jSet fields "tools"
            (JVal.arr (ts.filter (isValidToolName (validNames catalog)))))) ∧
    (∀ (fields : List (String × JVal)) (v : JVal),
      jGet fields "tools" = some v → (∀ l, v ≠ JVal.arr l) →
      validateMulti (JVal.obj fields) catalog = none) ∧
    (∀ response : String,
      OllamaSelector.parse_multi_response response catalog
        = (extractedJsonOllama response).bind (fun j => validateMulti j catalog)) := by
  refine ⟨?_, ?_, fun r => ollama_parse_multi_eq r catalog⟩
  · intro fields ts conf h1 h2 h3 hts hconf hn h0 h1'
    unfold validateMulti
    simp only [h1, h2, h3, Bool.and_self, if_true, hts, hconf, hn,
      decide_eq_true h0, decide_eq_true h1', Bool.and_self]
  · intro fields v htg hnot
    cases v with
    | arr l => exact absurd rfl (hnot l)
    | null => simp [validateMulti, htg]
    | bool b => simp [validateMulti, htg]
    | num q => simp [validateMulti, htg]
    | str s => simp [validateMulti, htg]
    | obj fs => simp [validateMulti, htg]

/-- A multi-tool response payload naming one catalog tool, one unknown tool,
and one non-string entry. -/
def fieldsMulti : List (String × JVal) :=
  [("tools", JVal.arr [JVal.str "good", JVal.str "bad", JVal.num 3]),
   ("confidence", JVal.num (4 / 5)), ("reasoning", JVal.str "ok")]

/-- A two-tool catalog containing `good` but not `bad`. -/
def catalogC7 : List Tool :=
  [⟨some "good", none, none, none⟩, ⟨some "other", none, none, none⟩]

/-- Witness for C7: the unknown name `bad` and the non-string entry are
silently dropped and the result is kept with only `good`. -/
theorem claim_C7_witness :
    validateMulti (JVal.obj fieldsMulti) catalogC7
      = some (jSet fieldsMulti "tools" (JVal.arr [JVal.str "good"])) := by
  have h := (claim_C7_multi_name_filtering catalogC7).1 fieldsMulti
    [JVal.str "good", JVal.str "bad", JVal.num 3] (JVal.num (4 / 5))
    (by with_unfolding_all rfl) (by with_unfolding_all rfl)
    (by with_unfolding_all rfl) (by with_unfolding_all rfl)
    (by with_unfolding_all rfl) (by with_unfolding_all rfl)
    (by norm_num [pyNumVal]) (by norm_num [pyNumVal])
  rw [h]
  with_unfolding_all rfl

/-! ## Claim C10: boolean confidence values -/

/-- A backend response whose `confidence` is the JSON boolean `true`. -/
def respBoolTrue : String :=
  "\x7b\"tool_name\": \"t\", \"confidence\": true, \"reasoning\": \"r\"\x7d"

/-- A backend response whose `confidence` is the JSON boolean `false`. -/
def respBoolFalse : String :=
  "\x7b\"tool_name\": \"t\", \"confidence\": false, \"reasoning\": \"r\"\x7d"

/-- The parsed fields of `respBoolTrue`. -/
def fieldsBoolTrue : List (String × JVal) :=
  [("tool_name", JVal.str "t"), ("confidence", JVal.bool true),
   ("reasoning", JVal.str "r")]

/-- The parsed fields of `respBoolFalse`. -/
def fieldsBoolFalse : List (String × JVal) :=
  [("tool_name", JVal.str "t"), ("confidence", JVal.bool false),
   ("reasoning", JVal.str "r")]

/-- C10: Python booleans count as integers, so
`isinstance(confidence, (int, float))` accepts them and `0 <= True <= 1`
holds.  A response with confidence `true` passes parsing and is returned by
`select_tool` with the boolean still in place (numerically 1, which clears
the default threshold 0.3); a response with confidence `false` passes
parsing but is then discarded by the default minimum-confidence check
(0 < 0.3). -/
theorem claim_C10_bool_confidence :
    isNumericPy (JVal.bool true) = true ∧
    OllamaSelector.parse_response respBoolTrue = some fieldsBoolTrue ∧
    OllamaSelector.select_tool [toolSearchWeb] (CallOutcome.success respBoolTrue)
      defaultMinConfidence = some fieldsBoolTrue ∧
    jGet fieldsBoolTrue "confidence" = some (JVal.bool true) ∧
    OllamaSelector.parse_response respBoolFalse = some fieldsBoolFalse ∧
    OllamaSelector.select_tool [toolSearchWeb] (CallOutcome.success respBoolFalse)
      defaultMinConfidence = none :=
  ⟨rfl, by with_unfolding_all rfl, by with_unfolding_all rfl, rfl,
   by with_unfolding_all rfl, by with_unfolding_all rfl⟩

/-! ## HybridBlender (spec-modelled) -/

/-- Modelled from the spec: the `HybridBlender` implementation
(`tool_router.scoring.matcher`, exercised by the
`select_top_matching_tools_hybrid` tests) is not present under `src/`;
spec section 4.4 clamps a value into `[0, 1]`. -/
def clamp01 (x : ℚ) : ℚ := max 0 (min 1 x)

/-- Modelled from the spec: keyword-score normalization — divide by 50 and
cap at 1 (keyword scores above 50 saturate). -/
def normalizeKeyword (kw : ℕ) : ℚ := min ((kw : ℚ) / 50) 1

/-- Modelled from the spec: `HybridBlender.blend(tool, task, context,
aiConfidence, aiWeight)` — `aiConfidence` and `aiWeight` are each clamped
to `[0, 1]` before use, the keyword score comes from the RelevanceScorer,
and the result is
`aiConfidence*aiWeight + normalizedKeyword*(1 - aiWeight)`. -/
def HybridBlender.blend (tool : Tool) (task context : String)
    (aiConfidence aiWeight : ℚ) : ℚ :=
  let c := clamp01 aiConfidence
  let w := clamp01 aiWeight
  c * w + normalizeKeyword (score_tool task context tool) * (1 - w)

/-- The clamp lands in `[0, 1]`. -/
theorem clamp01_mem (x : ℚ) : 0 ≤ clamp01 x ∧ clamp01 x ≤ 1 := by
  unfold clamp01
  constructor
  · exact le_max_left 0 _
  · exact max_le (by norm_num) (min_le_left 1 x)

/-- The normalized keyword score lands in `[0, 1]`. -/
theorem normalizeKeyword_mem (kw : ℕ) :
    0 ≤ normalizeKeyword kw ∧ normalizeKeyword kw ≤ 1 := by
  unfold normalizeKeyword
  constructor
  · exact le_min (by positivity) (by norm_num)
  · exact min_le_right _ 1

/-- C9: `blend` clamps both real-valued inputs to `[0, 1]` before use and
its result always lies in `[0, 1]`, for all inputs including out-of-range
ones; with `aiWeight = 0` the result is exactly the normalized keyword
score, and with `aiWeight = 1` it is exactly the (clamped) AI confidence —
in particular equal to `aiConfidence` whenever that is in range —
independent of the keyword score. -/
theorem claim_C9_blend_clamping (tool : Tool) (task context : String)
    (conf w : ℚ) :
    (0 ≤ HybridBlender.blend tool task context conf w ∧
      HybridBlender.blend tool task context conf w ≤ 1) ∧
    HybridBlender.blend tool task context conf 0
      = normalizeKeyword (score_tool task context tool) ∧
    HybridBlender.blend tool task context conf 1 = clamp01 conf ∧
    (0 ≤ conf → conf ≤ 1 → HybridBlender.blend tool task context conf 1 = conf) := by
  obtain ⟨hc0, hc1⟩ := clamp01_mem conf
  obtain ⟨hw0, hw1⟩ := clamp01_mem w
  obtain ⟨hk0, hk1⟩ := normalizeKeyword_mem (score_tool task context tool)
  have hz : clamp01 0 = 0 := by norm_num [clamp01]
  have ho : clamp01 1 = 1 := by norm_num [clamp01]
  refine ⟨⟨?_, ?_⟩, ?_, ?_, ?_⟩
  · unfold HybridBlender.blend
    dsimp only
    have h1 : 0 ≤ clamp01 conf * clamp01 w := mul_nonneg hc0 hw0
    have h2 : 0 ≤ normalizeKeyword (score_tool task context tool) * (1 - clamp01 w) :=
      mul_nonneg hk0 (by linarith)
    linarith
  · unfold HybridBlender.blend
    dsimp only
    nlinarith [mul_nonneg hc0 hw0,
      mul_nonneg hk0 (sub_nonneg.mpr hw1)]
  · unfold HybridBlender.blend
    rw [hz]
    ring
  · unfold HybridBlender.blend
    rw [ho]
    ring
  · intro h0 h1
    unfold HybridBlender.blend
    rw [ho]
    have : clamp01 conf = conf := by
      unfold clamp01
      rw [min_eq_right h1, max_eq_right h0]
    rw [this]
    ring

/-- Witness for C9: at confidence one half and weight one, the blend equals
the confidence exactly, whatever the keyword score of the example tool. -/
theorem claim_C9_witness :
    HybridBlender.blend toolSearchWeb "search the web" "" (1 / 2) 1 = 1 / 2 :=
  (claim_C9_blend_clamping toolSearchWeb "search the web" "" (1 / 2) 1).2.2.2
    (by norm_num) (by norm_num)

/-! ## FeedbackStore (spec-modelled)

The `tool_router.ai.cached_feedback` module (`CachedFeedbackStore`) is not
present under `src/`; only its unit tests are.  The definitions below are
modelled from spec sections 3 and 4.5: the bounded entry log, incremental
per-tool statistics, per-task-type patterns, the boost computation
(smoothed toward neutral 1.0 and clamped to `[0.1, 1.7]` — the exact
smoothing constants are unspecified in the spec and chosen
representatively), and the derived-value caches keyed by tool name that
are evicted on every `record` for that tool.  TTL expiry is a real-time
notion and is not modelled; the claims depend only on write-invalidation
and hit behavior. -/

/-- Modelled from the spec: one recorded outcome (spec section 3). -/
structure FeedbackEntry where
  task : String
  selected_tool : String
  success : Bool
  context : String
  confidence : ℚ
  task_type : String
  intent_category : String

/-- Modelled from the spec: per-tool aggregates (spec section 3). -/
structure ToolStats where
  success_count : ℕ
  failure_count : ℕ
  avg_confidence : ℚ

/-- `total = successCount + failureCount`. -/
def ToolStats.total (st : ToolStats) : ℕ :=
  st.success_count + st.failure_count

/-- `successRate`, with the neutral prior one half for unseen tools. -/
def ToolStats.success_rate (st : ToolStats) : ℚ :=
  if st.total = 0 then 1 / 2 else (st.success_count : ℚ) / (st.total : ℚ)

/-- `confidenceScore = successRate*0.7 + avgConfidence*0.3`. -/
def ToolStats.confidence_score (st : ToolStats) : ℚ :=
  st.success_rate * (7 / 10) + st.avg_confidence * (3 / 10)

/-- Modelled from the spec: per-task-type pattern aggregates. -/
structure TaskPattern where
  preferred_tools : List (String × ℕ)
  avg_confidence : ℚ
  total_occurrences : ℕ

/-- Modelled from the spec: keyword-trigger classification of the task
type (spec section 4.5; representative triggers for the six types). -/
def classifyTaskType (task : String) : String :=
  let ts := pyTokens task
  if "file" ∈ ts then "file_operations"
  else if "search" ∈ ts ∨ "find" ∈ ts ∨ "grep" ∈ ts then "search_operations"
  else if "http" ∈ ts ∨ "url" ∈ ts ∨ "download" ∈ ts then "network_operations"
  else if "run" ∈ ts ∨ "execute" ∈ ts ∨ "command" ∈ ts then "system_operations"
  else if "code" ∈ ts ∨ "refactor" ∈ ts ∨ "lint" ∈ ts then "code_operations"
  else "general_operations"

/-- Modelled from the spec: keyword-trigger classification of the intent
category. -/
def classifyIntent (task : String) : String :=
  let ts := pyTokens task
  if "create" ∈ ts ∨ "make" ∈ ts ∨ "add" ∈ ts then "create"
  else if "read" ∈ ts ∨ "get" ∈ ts ∨ "fetch" ∈ ts then "read"
  else if "update" ∈ ts ∨ "change" ∈ ts ∨ "edit" ∈ ts then "update"
  else if "delete" ∈ ts ∨ "remove" ∈ ts then "delete"
  else if "search" ∈ ts ∨ "find" ∈ ts then "search"
  else "unknown"

/-- Modelled from the spec: the store's in-memory state — bounded entry
log, per-tool stats, per-task-type patterns, and the three derived-value
caches keyed by tool name. -/
structure FeedbackStore where
  entries : List FeedbackEntry
  stats : List (String × ToolStats)
  patterns : List (String × TaskPattern)
  boost_cache : List (String × ℚ)
  stats_cache : List (String × ToolStats)
  pattern_cache : List (String × ℚ)

/-- Stats for a tool, defaulting to the empty aggregate. -/
def lookupStats (stats : List (String × ToolStats)) (tool : String) : ToolStats :=
  match stats.find? (fun p => p.1 == tool) with
  | some p => p.2
  | none => ⟨0, 0, 0⟩

/-- Insert-or-replace in an association list. -/
def setAssoc {β : Type} (l : List (String × β)) (k : String) (v : β) :
    List (String × β) :=
  if l.any (fun p => p.1 == k) then
    l.map (fun p => if p.1 == k then (k, v) else p)
  else l ++ [(k, v)]

/-- Pattern for a task type, defaulting to the empty pattern. -/
def lookupPattern (patterns : List (String × TaskPattern)) (tt : String) :
    TaskPattern :=
  match patterns.find? (fun p => p.1 == tt) with
  | some p => p.2
  | none => ⟨[], 0, 0⟩

/-- Bump a tool's count inside a pattern's preferred-tools histogram. -/
def bumpPreferred (pt : List (String × ℕ)) (tool : String) : List (String × ℕ) :=
  if pt.any (fun p => p.1 == tool) then
    pt.map (fun p => if p.1 == tool then (p.1, p.2 + 1) else p)
  else pt ++ [(tool, 1)]

/-- Modelled from the spec: the boost is clamped to `[0.1, 1.7]`. -/
def clampBoost (x : ℚ) : ℚ := max (1 / 10) (min (17 / 10) x)

/-- Modelled from the spec: the boost as a smoothed function of the
success rate and average confidence — neutral 1.0 for unseen tools, pulled
toward the extremes as observations accumulate, clamped. -/
def computeBoost (st : ToolStats) : ℚ :=
  let weight := min 1 ((st.total : ℚ) / 10)
  clampBoost (1 + (2 * st.confidence_score - 1) * weight)

/-- Modelled from the spec: `record` classifies the task, appends a
`FeedbackEntry` (evicting the oldest beyond 1000 entries — a pure FIFO),
incrementally updates the tool's stats (counts and running-mean
confidence) and the task type's pattern, then evicts the boost/stats/
pattern cache entries keyed by that tool. -/
def FeedbackStore.record (s : FeedbackStore) (task tool : String)
    (success : Bool) (context : String) (confidence : ℚ) : FeedbackStore :=
  let tt := classifyTaskType task
  let entry : FeedbackEntry :=
    ⟨task, tool, success, context, confidence, tt, classifyIntent task⟩
  let entries1 := s.entries ++ [entry]
  let entries2 :=
    if 1000 < entries1.length then entries1.drop (entries1.length - 1000)
    else entries1
  let st := lookupStats s.stats tool
  let n := st.total
  let st1 : ToolStats :=
    ⟨st.success_count + (if success then 1 else 0),
     st.failure_count + (if success then 0 else 1),
     (st.avg_confidence * (n : ℚ) + confidence) / ((n : ℚ) + 1)⟩
  let pat := lookupPattern s.patterns tt
  let pat1 : TaskPattern :=
    ⟨if success then bumpPreferred pat.preferred_tools tool else pat.preferred_tools,
     (pat.avg_confidence * (pat.total_occurrences : ℚ) + confidence) /
       ((pat.total_occurrences : ℚ) + 1),
     pat.total_occurrences + 1⟩
  { entries := entries2,
    stats := setAssoc s.stats tool st1,
    patterns := setAssoc s.patterns tt pat1,
    boost_cache := s.boost_cache.filter (fun p => p.1 != tool),
    stats_cache := s.stats_cache.filter (fun p => p.1 != tool),
    pattern_cache := s.pattern_cache.filter (fun p => p.1 != tool) }

/-- Modelled from the spec: `getBoost` — serve from the boost cache when an
entry for the tool is present, otherwise recompute from the current
aggregates and cache the value.  Returns the boost and the store. -/
def FeedbackStore.get_boost (s : FeedbackStore) (tool : String) :
    ℚ × FeedbackStore :=
  match s.boost_cache.find? (fun p => p.1 == tool) with
  | some p => (p.2, s)
  | none =>
    let v := computeBoost (lookupStats s.stats tool)
    (v, { s with boost_cache := (tool, v) :: s.boost_cache })

/-- After filtering out a key, a search for that key finds nothing. -/
theorem find_none_after_filter_ne {β : Type} (l : List (String × β))
    (tool : String) :
    (l.filter (fun p => p.1 != tool)).find? (fun p => p.1 == tool) = none := by
  induction l with
  | nil => rfl
  | cons p l ih =>
    rw [List.filter_cons]
    by_cases h : p.1 == tool
    · have hb : (p.1 != tool) = false := by simp [bne, h]
      rw [hb]
      simp only [Bool.false_eq_true, if_false]
      exact ih
    · have hb : (p.1 != tool) = true := by simp [bne, h]
      rw [hb]
      simp only [if_true]
      rw [List.find?_cons_of_neg (List.filter (fun p => p.1 != tool) l) h]
      exact ih

/-- C8: `record` for a tool evicts the cached boost entry keyed by that
tool, so the very next `get_boost` read recomputes from the current
aggregates; between writes, a repeated `get_boost` read returns the same
value and leaves the store unchanged (idempotent reads between writes). -/
theorem claim_C8_cache_invalidation (s : FeedbackStore) (task tool : String)
    (success : Bool) (context : String) (confidence : ℚ) :
    ((s.record task tool success context confidence).boost_cache.find?
        (fun p => p.1 == tool) = none) ∧
    (((s.record task tool success context confidence).get_boost tool).1
       = computeBoost
           (lookupStats (s.record task tool success context confidence).stats tool)) ∧
    ((s.get_boost tool).2.get_boost tool).1 = (s.get_boost tool).1 ∧
    ((s.get_boost tool).2.get_boost tool).2 = (s.get_boost tool).2 := by
  have hev : (s.record task tool success context confidence).boost_cache
      = s.boost_cache.filter (fun p => p.1 != tool) := rfl
  have hnone : (s.record task tool success context confidence).boost_cache.find?
      (fun p => p.1 == tool) = none := by
    rw [hev]; exact find_none_after_filter_ne s.boost_cache tool
  refine ⟨hnone, ?_, ?_, ?_⟩
  · unfold FeedbackStore.get_boost
    rw [hnone]
  · cases h : s.boost_cache.find? (fun p => p.1 == tool) with
    | some p => simp [FeedbackStore.get_boost, h]
    | none =>
      simp [FeedbackStore.get_boost, h, List.find?_cons_of_pos]
  · cases h : s.boost_cache.find? (fun p => p.1 == tool) with
    | some p => simp [FeedbackStore.get_boost, h]
    | none =>
      simp [FeedbackStore.get_boost, h, List.find?_cons_of_pos]
